import Mathlib

/-!
Verification development for the IELTS speaking-practice client
(`src/services/WebSocketService.ts` and the practice-screen state logic).

The TypeScript services are shallowly embedded as pure Lean functions over
explicit state records.  Every network call, device-audio call and clock
read is an input parameter of the embedded function (an `Except`/`Bool`/
`Option` describing the outcome the environment delivered), so each method
becomes a total state-transformer whose control flow mirrors the source
line by line.
-/

/-! ## WebSocketService (src/services/WebSocketService.ts, lines 1-154) -/

namespace WebSocketService

/-- `WebSocketMessage` from the source: `{type: string, data: any, timestamp?: number}`.
The `data` payload is opaque to every code path we verify, so it is kept as a string. -/
structure WebSocketMessage where
  type : String
  data : String
  timestamp : Option Nat := none
  deriving Repr, DecidableEq

/-- The ready states of the underlying browser `WebSocket`. -/
inductive ReadyState where
  | connecting
  | open
  | closing
  | closed
  deriving Repr, DecidableEq

/-- State of the `WebSocketService` class: the nullable socket (with its ready
state), the reconnect counters, and the outbound message queue.  `transport`
is the observation log: the sequence of messages actually handed to
`this.socket.send`, in order. -/
structure WSState where
  socket : Option ReadyState
  reconnectAttempts : Nat
  maxReconnectAttempts : Nat
  reconnectDelay : Nat
  messageQueue : List WebSocketMessage
  transport : List WebSocketMessage
  deriving Repr, DecidableEq

/-- Field initialisers of the class: `reconnectAttempts = 0`,
`maxReconnectAttempts = 5`, `reconnectDelay = 1000`, empty queue, no socket. -/
def wsInit : WSState :=
  { socket := none
    reconnectAttempts := 0
    maxReconnectAttempts := 5
    reconnectDelay := 1000
    messageQueue := []
    transport := [] }

/-- `send(message)`: transmit when the socket exists and is OPEN, otherwise
push onto `messageQueue`. -/
def send (s : WSState) (m : WebSocketMessage) : WSState :=
  if s.socket = some ReadyState.open then
    { s with transport := s.transport ++ [m] }
  else
    { s with messageQueue := s.messageQueue ++ [m] }

/-- One iteration of the `flushMessageQueue` while-loop: shift the head of the
queue and `send` it.  The loop body runs while the queue is non-empty; the JS
loop terminates because `send` on an OPEN socket does not re-queue.  We run it
with fuel equal to the starting queue length, which is exactly the number of
iterations the source loop performs when the socket is open. -/
def flushGo : Nat → WSState → WSState
  | 0, s => s
  | Nat.succ n, s =>
    match s.messageQueue with
    | [] => s
    | m :: rest => flushGo n (send { s with messageQueue := rest } m)

/-- `flushMessageQueue()`. -/
def flushMessageQueue (s : WSState) : WSState :=
  flushGo s.messageQueue.length s

/-- The `onopen` handler as fired by the environment: the socket has just
transitioned to OPEN; the handler resets `reconnectAttempts` and flushes the
queue. -/
def socketOpened (s : WSState) : WSState :=
  flushMessageQueue { s with socket := some ReadyState.open, reconnectAttempts := 0 }

/-- `attemptReconnect(url)`: when attempts remain, increment the counter and
schedule a `connect` after `reconnectDelay * reconnectAttempts` (the counter
after the increment); otherwise give up.  The returned `Option Nat` is the
scheduled delay (`none` = no retry scheduled). -/
def attemptReconnect (s : WSState) : WSState × Option Nat :=
  if s.reconnectAttempts < s.maxReconnectAttempts then
    let s' := { s with reconnectAttempts := s.reconnectAttempts + 1 }
    (s', some (s.reconnectDelay * s'.reconnectAttempts))
  else
    (s, none)

/-- The `onclose` handler: null the socket, then `attemptReconnect`. -/
def handleClose (s : WSState) : WSState × Option Nat :=
  attemptReconnect { s with socket := none }

/-- `getConnectionState()`. -/
def getConnectionState (s : WSState) : String :=
  match s.socket with
  | none => "disconnected"
  | some ReadyState.connecting => "connecting"
  | some ReadyState.open => "connected"
  | some ReadyState.closing => "closing"
  | some ReadyState.closed => "disconnected"

/-- A sequence of `send` calls, in order. -/
def sendAll (s : WSState) (ms : List WebSocketMessage) : WSState :=
  ms.foldl send s

end WebSocketService

/-! ## ElevenLabsConversationService (src/services/WebSocketService.ts, lines 154-466) -/

namespace ElevenLabsConversationService

/-- `ConversationSession` from the source. -/
structure ConversationSession where
  conversationId : String
  status : String
  startTime : Nat
  agentId : String
  deriving Repr, DecidableEq

/-- The two message kinds of `ConversationMessage.type`. -/
inductive MessageType where
  | user
  | agent
  deriving Repr, DecidableEq

/-- `ConversationMessage` from the source. -/
structure ConversationMessage where
  id : String
  type : MessageType
  content : String
  timestamp : Nat
  audioUrl : Option String := none
  deriving Repr, DecidableEq

/-- An `expo-av` `Audio.Recording` handle.  `uri` is what `getURI()` will
return once the recording is stopped (`none` models a `null` URI). -/
structure RecordingHandle where
  uri : Option String
  deriving Repr, DecidableEq

/-- An `expo-av` `Audio.Sound` handle. -/
structure SoundHandle where
  uri : String
  deriving Repr, DecidableEq

/-- State of the `ElevenLabsConversationService` class, together with the one
piece of `expo-av` device state the service depends on: `recorderExists`
models the module-level one-prepared-recording flag of `expo-av`
(`Audio.Recording.prepareToRecordAsync` throws
"Only one Recording object can be prepared at a given time." when a second
recording is prepared before the first is stopped and unloaded). -/
structure ConvState where
  currentSession : Option ConversationSession
  messages : List ConversationMessage
  audioRecording : Option RecordingHandle
  audioSound : Option SoundHandle
  recorderExists : Bool
  deriving Repr, DecidableEq

/-- Field initialisers of the class. -/
def convInit : ConvState :=
  { currentSession := none
    messages := []
    audioRecording := none
    audioSound := none
    recorderExists := false }

/-- The JSON body returned by the remote `send_audio` call.  Each field is
optional: the remote JSON may omit it (or the JS value may be an empty
string, which `||` treats the same way). -/
structure SendAudioResponse where
  user_transcript : Option String
  agent_response : Option String
  agent_audio_url : Option String
  deriving Repr, DecidableEq

/-- JavaScript `a || b` on a possibly-absent string: the default is used when
the value is missing or is the empty string (both are falsy). -/
def jsOrStr (o : Option String) (d : String) : String :=
  match o with
  | none => d
  | some s => if s = "" then d else s

/-- JavaScript truthiness of a possibly-absent string (`if (x)`). -/
def jsTruthy (o : Option String) : Bool :=
  match o with
  | none => false
  | some s => s ≠ ""

/-- `playAgentResponse(audioUrl)` (private): unload any previous sound, then
create and play a sound for `audioUrl`.  `createOk` is the outcome of
`Audio.Sound.createAsync`; the whole body is wrapped in try/catch that only
logs, so a failed create leaves the stored handle as it was. -/
def playAgentResponse (s : ConvState) (audioUrl : String) (createOk : Bool) : ConvState :=
  if createOk then { s with audioSound := some { uri := audioUrl } } else s

/-- `sendAudioMessage(audioUri)`.  Environment parameters: `audioFetch` is the
outcome of the `fetch(audioUri)` / blob / base64 chain; `remote` is the
outcome of the conversation-endpoint call (an `Except.error` covers both a
network failure and the `!conversationResponse.ok` throw); `soundOk` is the
outcome of loading the agent reply audio; `now` is `Date.now()`.  Returns the
settled promise (`Except`) and the post-state. -/
def sendAudioMessage (s : ConvState) (audioUri : String)
    (audioFetch : Except String Unit) (remote : Except String SendAudioResponse)
    (soundOk : Bool) (now : Nat) :
    Except String ConversationMessage × ConvState :=
  match s.currentSession with
  | none => (Except.error "No active conversation session", s)
  | some _ =>
    match audioFetch with
    | Except.error e => (Except.error e, s)
    | Except.ok _ =>
      match remote with
      | Except.error e => (Except.error e, s)
      | Except.ok data =>
        let userMessage : ConversationMessage :=
          { id := "user_" ++ toString now
            type := MessageType.user
            content := jsOrStr data.user_transcript "[Audio message]"
            timestamp := now
            audioUrl := some audioUri }
        let s1 := { s with messages := s.messages ++ [userMessage] }
        let agentMessage : ConversationMessage :=
          { id := "agent_" ++ toString now
            type := MessageType.agent
            content := jsOrStr data.agent_response ""
            timestamp := now
            audioUrl := data.agent_audio_url }
        let s2 := { s1 with messages := s1.messages ++ [agentMessage] }
        let s3 :=
          if jsTruthy data.agent_audio_url then
            playAgentResponse s2 (data.agent_audio_url.getD "") soundOk
          else s2
        (Except.ok agentMessage, s3)

/-- `startRecording()`.  Environment parameters: `permGranted` is the outcome
of `Audio.requestPermissionsAsync`, `recUri` the URI the device will report
for this recording.  `prepareToRecordAsync` fails when a recording is already
prepared (the expo-av one-recorder flag); `setAudioModeAsync` and
`startAsync` are modelled as succeeding.  On any throw the stored state is
unchanged (the handle is assigned only after `startAsync` resolves). -/
def startRecording (s : ConvState) (permGranted : Bool) (recUri : Option String) :
    Except String ConvState :=
  if ¬permGranted then
    Except.error "Audio recording permission not granted"
  else if s.recorderExists then
    Except.error "Only one Recording object can be prepared at a given time."
  else
    Except.ok { s with recorderExists := true, audioRecording := some { uri := recUri } }

/-- `stopRecording()`.  `stopErr = some e` means `stopAndUnloadAsync` threw
`e` (leaving the stored handle in place, since the null-assignment comes
after the await); `stopErr = none` means it resolved, after which the handle
is cleared before the URI is validated. -/
def stopRecording (s : ConvState) (stopErr : Option String) :
    Except String String × ConvState :=
  match s.audioRecording with
  | none => (Except.error "No active recording", s)
  | some rec =>
    match stopErr with
    | some e => (Except.error e, s)
    | none =>
      let s1 := { s with audioRecording := none, recorderExists := false }
      match rec.uri with
      | none => (Except.error "Failed to get recording URI", s1)
      | some u => (Except.ok u, s1)

/-- `endConversation()`.  `remoteOk` is whether the `end_conversation` fetch
resolved (its HTTP status is never examined by the source).  When it
resolves, the session is nulled and the audio handles are stopped/unloaded
and nulled (those device calls modelled as succeeding); when it throws, the
catch block only logs, so every cleanup statement after the await is
skipped.  With no current session the method returns immediately.  The
method never rejects, which is why its result type is just the post-state. -/
def endConversation (s : ConvState) (remoteOk : Bool) : ConvState :=
  match s.currentSession with
  | none => s
  | some _ =>
    if remoteOk then
      let s1 := { s with currentSession := none }
      let s2 :=
        match s1.audioRecording with
        | some _ => { s1 with audioRecording := none, recorderExists := false }
        | none => s1
      match s2.audioSound with
      | some _ => { s2 with audioSound := none }
      | none => s2
    else s

/-- `getMessages()`: a copy of the history. -/
def getMessages (s : ConvState) : List ConversationMessage :=
  s.messages

end ElevenLabsConversationService

/-! ## ElevenLabsService (src/services/WebSocketService.ts, lines 466-657) -/

namespace ElevenLabsService

/-- `ElevenLabsVoice` from the source. -/
structure ElevenLabsVoice where
  id : String
  name : String
  description : String
  gender : String
  accent : String
  category : String
  previewUrl : Option String := none
  deriving Repr, DecidableEq

/-- The JSON envelope returned by the voices endpoint:
`{success, voices} | {success:false, error}`. -/
structure VoicesEnvelope where
  success : Bool
  voices : List ElevenLabsVoice
  error : Option String
  deriving Repr, DecidableEq

/-- `getFallbackVoices()` (private): the fixed built-in catalog. -/
def getFallbackVoices : List ElevenLabsVoice :=
  [ { id := "pNInz6obpgDQGcFmaJgB"
      name := "Adam"
      description := "Deep, authoritative voice perfect for formal examinations"
      gender := "male", accent := "american", category := "premade" }
  , { id := "EXAVITQu4vr4xnSDxMaL"
      name := "Bella"
      description := "Clear, professional female voice with neutral accent"
      gender := "female", accent := "american", category := "premade" }
  , { id := "VR6AewLTigWG4xSOukaG"
      name := "Arnold"
      description := "Confident, experienced examiner voice"
      gender := "male", accent := "american", category := "premade" }
  , { id := "MF3mGyEYCl7XYWbV9V6O"
      name := "Elli"
      description := "Warm, encouraging coach voice"
      gender := "female", accent := "american", category := "premade" }
  , { id := "TxGEqnHWrfWFTfGW9XjX"
      name := "Josh"
      description := "Young, energetic speaking coach"
      gender := "male", accent := "american", category := "premade" } ]

/-- `getAvailableVoices()`.  `resp` is the outcome of the catalog fetch plus
JSON parse; an `Except.error` covers a network failure or malformed JSON.
A parsed envelope whose `success` is false makes the body throw, which the
catch turns into the fallback catalog, exactly like a network failure.  The
method never rejects, which is why the result type is a plain list. -/
def getAvailableVoices (resp : Except String VoicesEnvelope) : List ElevenLabsVoice :=
  match resp with
  | Except.error _ => getFallbackVoices
  | Except.ok data =>
    if data.success then data.voices else getFallbackVoices

/-- Device-audio calls issued by `playAudio`/`stopAudio`, in issue order:
the observation log for the playback claims. -/
inductive AudioAction where
  | stopCall (uri : String)
  | unloadCall (uri : String)
  | createCall (uri : String)
  deriving Repr, DecidableEq

/-- State of the `ElevenLabsService` class: the at-most-one current sound. -/
structure TTSState where
  currentSound : Option ElevenLabsConversationService.SoundHandle
  deriving Repr, DecidableEq

/-- `stopAudio()`: when a sound is held, `stopAsync` then `unloadAsync` it and
null the field (the device calls modelled as succeeding); with nothing
playing it is a no-op.  Returns the device calls it issued. -/
def stopAudio (s : TTSState) : TTSState × List AudioAction :=
  match s.currentSound with
  | none => (s, [])
  | some snd =>
    ({ currentSound := none },
     [AudioAction.stopCall snd.uri, AudioAction.unloadCall snd.uri])

/-- `playAudio(audioUri)`: first `stopAudio()`, then
`Audio.Sound.createAsync({uri}, {shouldPlay:true})` and store the new sound.
`createOk` is the outcome of the create (a failure is caught and only
logged, leaving no sound stored).  Returns the device calls issued, in
order. -/
def playAudio (s : TTSState) (audioUri : String) (createOk : Bool) :
    TTSState × List AudioAction :=
  let stopped := stopAudio s
  if createOk then
    ({ currentSound := some { uri := audioUri } },
     stopped.2 ++ [AudioAction.createCall audioUri])
  else
    (stopped.1, stopped.2 ++ [AudioAction.createCall audioUri])

end ElevenLabsService

/-! ## PracticeScreen state logic (src/unnamed/part_003, lines 722-846) -/

namespace PracticeScreen

open ElevenLabsConversationService

/-- `ConversationState` from `constants/AppConfig`:
`'idle' | 'listening' | 'processing' | 'speaking'`. -/
inductive ConversationState where
  | idle
  | listening
  | processing
  | speaking
  deriving Repr, DecidableEq

/-- The component state variables of `PracticeScreen` that the recording
logic reads and writes. -/
structure ScreenState where
  conversationState : ConversationState
  isRecording : Bool
  currentSession : Option ConversationSession
  deriving Repr, DecidableEq

/-- The `startRecording` handler of `PracticeScreen`: guarded no-op unless a
session exists and the conversation state is `idle`; otherwise it calls the
service's `startRecording` and, on success, sets `isRecording` and moves to
`listening` (a failure is caught and only alerts, changing no state). -/
def screenStartRecording (st : ScreenState) (svc : ConvState)
    (permGranted : Bool) (recUri : Option String) : ScreenState × ConvState :=
  if st.currentSession = none ∨ st.conversationState ≠ ConversationState.idle then
    (st, svc)
  else
    match ElevenLabsConversationService.startRecording svc permGranted recUri with
    | Except.error _ => (st, svc)
    | Except.ok svc' =>
      ({ st with isRecording := true
                 conversationState := ConversationState.listening }, svc')

end PracticeScreen

/-! ## Shared helpers and sample values -/

namespace Samples

open ElevenLabsConversationService

/-- A concrete active session, for witnesses. -/
def sess0 : ConversationSession :=
  { conversationId := "c1", status := "active", startTime := 0, agentId := "a1" }

/-- A service state holding the sample active session. -/
def convActive : ConvState :=
  { convInit with currentSession := some sess0 }

/-- A concrete remote reply without a transcript. -/
def reply0 : SendAudioResponse :=
  { user_transcript := none
    agent_response := some "Tell me more"
    agent_audio_url := some "u1" }

/-- A concrete history entry. -/
def msg0 : ConversationMessage :=
  { id := "user_1", type := MessageType.user, content := "hi", timestamp := 1 }

/-- A state holding an active session, one history message, a live recording
and a loaded sound: everything `endConversation` is supposed to clear. -/
def convLoaded : ConvState :=
  { currentSession := some sess0
    messages := [msg0]
    audioRecording := some { uri := some "rec1" }
    audioSound := some { uri := "snd1" }
    recorderExists := true }

/-- The state produced by a successful `startRecording` from the initial
state. -/
def convRec : ConvState :=
  { convInit with recorderExists := true
                  audioRecording := some { uri := some "rec1" } }

/-- A state whose live recording will report a `null` URI on stop. -/
def convRecNoUri : ConvState :=
  { convInit with recorderExists := true
                  audioRecording := some { uri := none } }

/-- A concrete channel message. -/
def m1 : WebSocketService.WebSocketMessage :=
  { type := "audio", data := "1" }

/-- A second concrete channel message. -/
def m2 : WebSocketService.WebSocketMessage :=
  { type := "audio", data := "2" }

/-- A screen state in `listening` with a session and no recording flag. -/
def stListening : PracticeScreen.ScreenState :=
  { conversationState := PracticeScreen.ConversationState.listening
    isRecording := false
    currentSession := some sess0 }

/-- An exhausted channel state: all five reconnect attempts used. -/
def wsExhausted : WebSocketService.WSState :=
  { WebSocketService.wsInit with reconnectAttempts := 5 }

/-- A non-success voice-catalog envelope, as parsed from an HTTP 500 body. -/
def badEnvelope : ElevenLabsService.VoicesEnvelope :=
  { success := false
    voices := []
    error := some "Internal server error" }

end Samples

namespace ElevenLabsConversationService

/-- `playAgentResponse` only touches the stored sound handle, never the
message history. -/
theorem playAgentResponse_messages (s : ConvState) (url : String) (ok : Bool) :
    (playAgentResponse s url ok).messages = s.messages := by
  unfold playAgentResponse
  split <;> rfl

/-- C1: a successful `sendAudioMessage` on a state with an active session
appends exactly two messages to the history — first a user message, then the
agent message it returns — and the user message's content is the returned
transcript, or "[Audio message]" when no (non-empty) transcript came back. -/
theorem sendAudioMessage_success_appends_pair
    (s : ConvState) (sess : ConversationSession) (audioUri : String)
    (data : SendAudioResponse) (soundOk : Bool) (now : Nat)
    (hs : s.currentSession = some sess) :
    ∃ userMsg agentMsg : ConversationMessage,
      (sendAudioMessage s audioUri (Except.ok ()) (Except.ok data) soundOk now).1
          = Except.ok agentMsg ∧
      (sendAudioMessage s audioUri (Except.ok ()) (Except.ok data) soundOk now).2.messages
          = s.messages ++ [userMsg, agentMsg] ∧
      userMsg.type = MessageType.user ∧
      agentMsg.type = MessageType.agent ∧
      ((data.user_transcript = none ∨ data.user_transcript = some "") →
          userMsg.content = "[Audio message]") ∧
      (∀ t, data.user_transcript = some t → t ≠ "" → userMsg.content = t) := by
  refine ⟨{ id := "user_" ++ toString now
            type := MessageType.user
            content := jsOrStr data.user_transcript "[Audio message]"
            timestamp := now
            audioUrl := some audioUri },
          { id := "agent_" ++ toString now
            type := MessageType.agent
            content := jsOrStr data.agent_response ""
            timestamp := now
            audioUrl := data.agent_audio_url }, ?_, ?_, rfl, rfl, ?_, ?_⟩
  · simp only [sendAudioMessage, hs]
  · simp only [sendAudioMessage, hs]
    split <;> simp [playAgentResponse_messages]
  · rintro (h | h) <;> simp [jsOrStr, h]
  · intro t ht hne
    simp [jsOrStr, ht, hne]

/-- C1 witness: the theorem applied to the sample active session with a
transcript-free reply. -/
theorem sendAudioMessage_success_appends_pair_witness :
    ∃ userMsg agentMsg : ConversationMessage,
      (sendAudioMessage Samples.convActive "file.m4a" (Except.ok ())
          (Except.ok Samples.reply0) true 5).1 = Except.ok agentMsg ∧
      (sendAudioMessage Samples.convActive "file.m4a" (Except.ok ())
          (Except.ok Samples.reply0) true 5).2.messages
          = Samples.convActive.messages ++ [userMsg, agentMsg] ∧
      userMsg.type = MessageType.user ∧
      agentMsg.type = MessageType.agent ∧
      ((Samples.reply0.user_transcript = none ∨
          Samples.reply0.user_transcript = some "") →
          userMsg.content = "[Audio message]") ∧
      (∀ t, Samples.reply0.user_transcript = some t → t ≠ "" →
          userMsg.content = t) :=
  sendAudioMessage_success_appends_pair Samples.convActive Samples.sess0
    "file.m4a" Samples.reply0 true 5 rfl

/-- C2: every failing `sendAudioMessage` — no active session, a failing
audio fetch, or a failing remote call — propagates an error to the caller
and leaves the service state (in particular the message history) unchanged;
each specific error is the one thrown at that point. -/
theorem sendAudioMessage_failure_preserves_history
    (s : ConvState) (audioUri : String) (audioFetch : Except String Unit)
    (remote : Except String SendAudioResponse) (soundOk : Bool) (now : Nat)
    (h : s.currentSession = none ∨ (∃ e, audioFetch = Except.error e) ∨
         (∃ e, remote = Except.error e)) :
    (∃ e, (sendAudioMessage s audioUri audioFetch remote soundOk now).1
        = Except.error e) ∧
    (sendAudioMessage s audioUri audioFetch remote soundOk now).2 = s ∧
    (s.currentSession = none →
      (sendAudioMessage s audioUri audioFetch remote soundOk now).1
        = Except.error "No active conversation session") ∧
    (∀ e, s.currentSession ≠ none → audioFetch = Except.error e →
      (sendAudioMessage s audioUri audioFetch remote soundOk now).1
        = Except.error e) ∧
    (∀ e, s.currentSession ≠ none → audioFetch = Except.ok () →
      remote = Except.error e →
      (sendAudioMessage s audioUri audioFetch remote soundOk now).1
        = Except.error e) := by
  unfold sendAudioMessage
  rcases hcs : s.currentSession with _ | sess
  · simp
  · rcases haf : audioFetch with e | u
    · simp
    · rcases hr : remote with e | data
      · simp
      · rcases h with h | ⟨e, he⟩ | ⟨e, he⟩
        · rw [hcs] at h; cases h
        · rw [haf] at he; cases he
        · rw [hr] at he; cases he

/-- C2 witness: the theorem applied to a state with no active session. -/
theorem sendAudioMessage_failure_preserves_history_witness :
    (∃ e, (sendAudioMessage convInit "file.m4a" (Except.ok ())
        (Except.ok Samples.reply0) true 5).1 = Except.error e) ∧
    (sendAudioMessage convInit "file.m4a" (Except.ok ())
        (Except.ok Samples.reply0) true 5).2 = convInit ∧
    (convInit.currentSession = none →
      (sendAudioMessage convInit "file.m4a" (Except.ok ())
          (Except.ok Samples.reply0) true 5).1
        = Except.error "No active conversation session") ∧
    (∀ e, convInit.currentSession ≠ none →
      (Except.ok () : Except String Unit) = Except.error e →
      (sendAudioMessage convInit "file.m4a" (Except.ok ())
          (Except.ok Samples.reply0) true 5).1 = Except.error e) ∧
    (∀ e, convInit.currentSession ≠ none →
      (Except.ok () : Except String Unit) = Except.ok () →
      (Except.ok Samples.reply0 : Except String SendAudioResponse)
        = Except.error e →
      (sendAudioMessage convInit "file.m4a" (Except.ok ())
          (Except.ok Samples.reply0) true 5).1 = Except.error e) :=
  sendAudioMessage_failure_preserves_history convInit "file.m4a" (Except.ok ())
    (Except.ok Samples.reply0) true 5 (Or.inl rfl)

/-- C3 counterexample: when the remote end call throws, `endConversation`
leaves the session, the live recording and the loaded sound all in place
(every cleanup statement sits after the awaited fetch, and the catch only
logs); and even when the remote call resolves, the message history is not
cleared.  This refutes the claim that after any call the resources are
released and the session and message state are cleared. -/
theorem endConversation_not_unconditional_cleanup :
    (endConversation Samples.convLoaded false).currentSession ≠ none ∧
    (endConversation Samples.convLoaded false).audioRecording ≠ none ∧
    (endConversation Samples.convLoaded false).audioSound ≠ none ∧
    (endConversation Samples.convLoaded true).messages ≠ [] := by
  refine ⟨?_, ?_, ?_, ?_⟩ <;> decide

/-- C3 amended: `endConversation` always resolves successfully (it is a
total state transformer: remote failures are absorbed, and with no active
session it is a no-op).  When the remote end call resolves, the session is
cleared and the held recording and playback resources are released, but the
message history is kept (it is reset only by the next `startConversation`);
when the remote end call throws, the state is left entirely unchanged. -/
theorem endConversation_amended (s : ConvState) (remoteOk : Bool) :
    (s.currentSession = none → endConversation s remoteOk = s) ∧
    (s.currentSession ≠ none → remoteOk = false → endConversation s remoteOk = s) ∧
    (s.currentSession ≠ none → remoteOk = true →
      (endConversation s remoteOk).currentSession = none ∧
      (endConversation s remoteOk).audioRecording = none ∧
      (endConversation s remoteOk).audioSound = none ∧
      (endConversation s remoteOk).messages = s.messages) := by
  unfold endConversation
  rcases hcs : s.currentSession with _ | sess
  · simp
  · cases remoteOk
    · simp
    · simp only [hcs]
      rcases hr : s.audioRecording with _ | rec <;>
        rcases hd : s.audioSound with _ | snd <;> simp [hr, hd]

/-- C3 amended witness: the no-session no-op, the skipped cleanup on a
thrown remote call, and the full cleanup on a resolved remote call, at
concrete states. -/
theorem endConversation_amended_witness :
    endConversation convInit true = convInit ∧
    endConversation Samples.convLoaded false = Samples.convLoaded ∧
    (endConversation Samples.convLoaded true).currentSession = none ∧
    (endConversation Samples.convLoaded true).audioRecording = none ∧
    (endConversation Samples.convLoaded true).audioSound = none ∧
    (endConversation Samples.convLoaded true).messages
      = Samples.convLoaded.messages := by
  refine ⟨(endConversation_amended convInit true).1 rfl,
          (endConversation_amended Samples.convLoaded false).2.1 (by decide) rfl,
          ?_⟩
  exact (endConversation_amended Samples.convLoaded true).2.2 (by decide) rfl

/-- C4: after a `startRecording` call succeeds, a second `startRecording`
without an intervening `stopRecording` always fails — when permission is
granted it hits the expo-av one-prepared-recording guard, and when
permission is refused it fails on the permission check; either way the
second call returns an error. -/
theorem startRecording_twice_fails (s s' : ConvState) (p : Bool)
    (u : Option String) (h : startRecording s p u = Except.ok s') :
    ∀ p' u', ∃ e, startRecording s' p' u' = Except.error e := by
  intro p' u'
  unfold startRecording at h
  split at h
  · cases h
  · split at h
    · cases h
    · injection h with h
      have hrec : s'.recorderExists = true := by rw [← h]
      cases p' with
      | false => exact ⟨"Audio recording permission not granted", by
          simp [startRecording]⟩
      | true => exact ⟨"Only one Recording object can be prepared at a given time.",
          by simp [startRecording, hrec]⟩

/-- C4 witness: starting from the fresh service state, the first call
succeeds and the immediately following call fails. -/
theorem startRecording_twice_fails_witness :
    ∃ e, startRecording Samples.convRec true (some "rec2") = Except.error e :=
  startRecording_twice_fails convInit Samples.convRec true (some "rec1")
    rfl true (some "rec2")

/-- C10: when `stopRecording` finds a live recording and the underlying
`stopAndUnloadAsync` resolves, the stored handle is nulled before the URI is
validated — so the post-state has no active recording (an immediately
following `stopRecording` fails with "No active recording"), even in the
case where the call itself then fails because the device reported no URI. -/
theorem stopRecording_clears_handle_before_uri_check
    (s : ConvState) (rec : RecordingHandle) (h : s.audioRecording = some rec) :
    (stopRecording s none).2.audioRecording = none ∧
    (∀ e2, (stopRecording (stopRecording s none).2 e2).1
        = Except.error "No active recording") ∧
    (rec.uri = none →
      (stopRecording s none).1 = Except.error "Failed to get recording URI") := by
  unfold stopRecording
  rcases hu : rec.uri with _ | u <;>
    simp [h, hu, stopRecording]

/-- C10 witness: a live recording whose device URI comes back `null`: the
call fails with the URI error, yet the handle is cleared and the next stop
fails with the no-active-recording error. -/
theorem stopRecording_clears_handle_before_uri_check_witness :
    (stopRecording Samples.convRecNoUri none).2.audioRecording = none ∧
    (∀ e2, (stopRecording (stopRecording Samples.convRecNoUri none).2 e2).1
        = Except.error "No active recording") ∧
    ((RecordingHandle.mk none).uri = none →
      (stopRecording Samples.convRecNoUri none).1
        = Except.error "Failed to get recording URI") :=
  stopRecording_clears_handle_before_uri_check Samples.convRecNoUri
    { uri := none } (by decide)

end ElevenLabsConversationService

namespace WebSocketService

/-- `send` on a non-open socket only queues: socket and transport are
untouched and the message lands at the back of the queue. -/
theorem send_not_open (s : WSState) (m : WebSocketMessage)
    (h : s.socket ≠ some ReadyState.open) :
    send s m = { s with messageQueue := s.messageQueue ++ [m] } := by
  unfold send
  rw [if_neg h]

/-- `send` on an open socket transmits: the queue is untouched and the
message lands at the back of the transport log. -/
theorem send_open (s : WSState) (m : WebSocketMessage)
    (h : s.socket = some ReadyState.open) :
    send s m = { s with transport := s.transport ++ [m] } := by
  unfold send
  rw [if_pos h]

/-- A sequence of `send` calls on a non-open socket appends all messages to
the queue, in call order. -/
theorem sendAll_not_open (ms : List WebSocketMessage) :
    ∀ s : WSState, s.socket ≠ some ReadyState.open →
    sendAll s ms = { s with messageQueue := s.messageQueue ++ ms } := by
  induction ms with
  | nil => intro s _; simp [sendAll]
  | cons m rest ih =>
    intro s h
    show sendAll (send s m) rest = _
    rw [send_not_open s m h]
    rw [ih { s with messageQueue := s.messageQueue ++ [m] } h]
    simp

/-- The `flushMessageQueue` loop, run with enough fuel on an open socket,
moves the whole queue onto the transport in order. -/
theorem flushGo_open (n : Nat) :
    ∀ s : WSState, s.socket = some ReadyState.open →
    s.messageQueue.length ≤ n →
    flushGo n s = { s with messageQueue := []
                           transport := s.transport ++ s.messageQueue } := by
  induction n with
  | zero =>
    intro s hs hl
    obtain ⟨so, ra, ma, rd, mq, tr⟩ := s
    have hq : mq = [] := List.eq_nil_of_length_eq_zero (Nat.le_zero.mp hl)
    subst hq
    simp [flushGo]
  | succ n ih =>
    intro s hs hl
    obtain ⟨so, ra, ma, rd, mq, tr⟩ := s
    cases mq with
    | nil => simp [flushGo]
    | cons m rest =>
      have hsend : send ⟨so, ra, ma, rd, rest, tr⟩ m
          = ⟨so, ra, ma, rd, rest, tr ++ [m]⟩ :=
        send_open _ m hs
      have hlen : rest.length ≤ n := Nat.le_of_succ_le_succ (by simpa using hl)
      show flushGo n (send ⟨so, ra, ma, rd, rest, tr⟩ m) = _
      rw [hsend, ih ⟨so, ra, ma, rd, rest, tr ++ [m]⟩ hs hlen]
      simp

/-- `flushMessageQueue` on an open socket empties the queue onto the
transport, preserving order. -/
theorem flushMessageQueue_open (s : WSState) (hs : s.socket = some ReadyState.open) :
    flushMessageQueue s = { s with messageQueue := []
                                   transport := s.transport ++ s.messageQueue } :=
  flushGo_open s.messageQueue.length s hs (Nat.le_refl _)

/-- C5: all messages sent while the channel is not open are queued in call
order, and once the socket opens, the `onopen` flush hands them to the
transport in that same relative order (after anything already queued),
leaving the queue empty. -/
theorem send_disconnected_fifo (s : WSState) (ms : List WebSocketMessage)
    (h : s.socket ≠ some ReadyState.open) :
    (sendAll s ms).messageQueue = s.messageQueue ++ ms ∧
    (sendAll s ms).transport = s.transport ∧
    (socketOpened (sendAll s ms)).transport
      = s.transport ++ (s.messageQueue ++ ms) ∧
    (socketOpened (sendAll s ms)).messageQueue = [] := by
  rw [sendAll_not_open ms s h]
  refine ⟨rfl, rfl, ?_, ?_⟩ <;>
    · unfold socketOpened
      rw [flushMessageQueue_open _ rfl]

/-- C5 witness: two messages sent on the fresh (socketless) channel state
arrive on the transport in send order once the socket opens. -/
theorem send_disconnected_fifo_witness :
    (sendAll wsInit [Samples.m1, Samples.m2]).messageQueue
      = wsInit.messageQueue ++ [Samples.m1, Samples.m2] ∧
    (sendAll wsInit [Samples.m1, Samples.m2]).transport = wsInit.transport ∧
    (socketOpened (sendAll wsInit [Samples.m1, Samples.m2])).transport
      = wsInit.transport ++ (wsInit.messageQueue ++ [Samples.m1, Samples.m2]) ∧
    (socketOpened (sendAll wsInit [Samples.m1, Samples.m2])).messageQueue = [] :=
  send_disconnected_fifo wsInit [Samples.m1, Samples.m2] (by decide)

/-- C6: while attempts remain, a disconnect schedules reconnect attempt
`n = reconnectAttempts + 1` after a delay of exactly `n` times the base
delay; once the configured maximum is exhausted, `onclose` schedules no
further attempt and `getConnectionState` reports "disconnected". -/
theorem reconnect_linear_backoff_then_exhausted (s : WSState) :
    (s.reconnectAttempts < s.maxReconnectAttempts →
      attemptReconnect s
        = ({ s with reconnectAttempts := s.reconnectAttempts + 1 },
           some (s.reconnectDelay * (s.reconnectAttempts + 1)))) ∧
    (s.maxReconnectAttempts ≤ s.reconnectAttempts →
      (handleClose s).2 = none ∧
      getConnectionState (handleClose s).1 = "disconnected") := by
  constructor
  · intro h
    unfold attemptReconnect
    rw [if_pos h]
  · intro h
    have hn : ¬ s.reconnectAttempts < s.maxReconnectAttempts := Nat.not_lt.mpr h
    unfold handleClose attemptReconnect
    rw [if_neg (by simpa using hn)]
    exact ⟨rfl, rfl⟩

/-- C6 witness: from the initial state (attempt 1 of 5, base delay 1000 ms)
the scheduled delay is 1000 = 1 × base; from the exhausted state no retry is
scheduled and the state query reports "disconnected". -/
theorem reconnect_linear_backoff_then_exhausted_witness :
    attemptReconnect wsInit
      = ({ wsInit with reconnectAttempts := 1 }, some 1000) ∧
    (handleClose Samples.wsExhausted).2 = none ∧
    getConnectionState (handleClose Samples.wsExhausted).1 = "disconnected" := by
  refine ⟨?_, ?_⟩
  · have h := (reconnect_linear_backoff_then_exhausted wsInit).1 (by decide)
    simpa using h
  · exact (reconnect_linear_backoff_then_exhausted Samples.wsExhausted).2 (by decide)

end WebSocketService

namespace ElevenLabsService

/-- C7: whenever the voice-catalog fetch fails — the fetch or JSON parse
throws, or the parsed envelope has `success = false` — `getAvailableVoices`
still returns a value (the method is total, so the error never propagates),
namely the fixed fallback catalog, which has exactly 5 entries. -/
theorem getAvailableVoices_fallback (resp : Except String VoicesEnvelope)
    (h : (∃ e, resp = Except.error e) ∨
         (∃ d, resp = Except.ok d ∧ d.success = false)) :
    getAvailableVoices resp = getFallbackVoices ∧
    (getAvailableVoices resp).length = 5 := by
  have hres : getAvailableVoices resp = getFallbackVoices := by
    rcases h with ⟨e, he⟩ | ⟨d, hd, hsucc⟩
    · rw [he]; rfl
    · rw [hd]
      unfold getAvailableVoices
      simp [hsucc]
  exact ⟨hres, by rw [hres]; rfl⟩

/-- C7 witness: an HTTP 500 body parsed as a non-success envelope yields the
5-entry fallback list. -/
theorem getAvailableVoices_fallback_witness :
    getAvailableVoices (Except.ok Samples.badEnvelope) = getFallbackVoices ∧
    (getAvailableVoices (Except.ok Samples.badEnvelope)).length = 5 :=
  getAvailableVoices_fallback _ (Or.inr ⟨Samples.badEnvelope, rfl, rfl⟩)

/-- C8: `playAudio a` then `playAudio b` (device calls succeeding): during
the second call the service first issues stop and unload for `a` and only
then the create-and-play for `b`, and afterwards `b` is the one currently
held sound — the `Option`-typed field makes more than one active handle
impossible. -/
theorem playAudio_then_playAudio (s : TTSState) (a b : String) :
    (playAudio (playAudio s a true).1 b true).2
      = [AudioAction.stopCall a, AudioAction.unloadCall a,
         AudioAction.createCall b] ∧
    (playAudio (playAudio s a true).1 b true).1.currentSound
      = some { uri := b } := by
  have h1 : (playAudio s a true).1
      = { currentSound := some { uri := a } } := by
    unfold playAudio
    rfl
  rw [h1]
  exact ⟨rfl, rfl⟩

end ElevenLabsService

namespace PracticeScreen

open ElevenLabsConversationService

/-- C9: the practice screen's capture-start handler is a guarded no-op
whenever no session exists or the conversation state is not `idle` (neither
the screen state nor the service state changes), and whenever it does turn
recording on, the pre-state was `idle` with a live session. -/
theorem screenStartRecording_guarded (st : ScreenState) (svc : ConvState)
    (p : Bool) (u : Option String) :
    ((st.currentSession = none ∨ st.conversationState ≠ ConversationState.idle) →
      screenStartRecording st svc p u = (st, svc)) ∧
    (st.isRecording = false →
      (screenStartRecording st svc p u).1.isRecording = true →
      st.conversationState = ConversationState.idle ∧ st.currentSession ≠ none) := by
  constructor
  · intro h
    unfold screenStartRecording
    rw [if_pos h]
  · intro hrec hres
    by_cases hg : st.currentSession = none ∨
        st.conversationState ≠ ConversationState.idle
    · unfold screenStartRecording at hres
      rw [if_pos hg] at hres
      rw [hrec] at hres
      cases hres
    · push_neg at hg
      exact ⟨hg.2, hg.1⟩

/-- C9 witness: in `listening` with a live session, a capture-start request
changes nothing. -/
theorem screenStartRecording_guarded_witness :
    screenStartRecording Samples.stListening
        ElevenLabsConversationService.convInit true none
      = (Samples.stListening, ElevenLabsConversationService.convInit) :=
  (screenStartRecording_guarded Samples.stListening
      ElevenLabsConversationService.convInit true none).1 (Or.inr (by decide))

end PracticeScreen
